import Mathlib

/-!
Verification of the request-orchestration subsystem of the
Unstructured general-partition API gateway.

The definitions below are shallow embeddings of the Python source:

* `get_pdf_splits`, `partition_file_via_api`, `partition_pdf_splits`
  embed `prepline_general/api/general.py` (PDF page splitting and the
  parallel fan-out dispatcher);
* `is_non_retryable`, `backoffRun`, `call_api` embed the
  `@backoff.on_exception`-wrapped remote call in the same file;
* `MemoryCheckMiddleware` / `healthcheck` embed
  `prepline_general/api/app.py`;
* `check_memory` embeds `prepline_general/api/events.py`;
* `outerMerge` embeds the row semantics of the pandas outer merge used
  by `join_responses`;
* `build_part` / `stream_response` embed `MultipartMixedResponse`.

Machine integers are modelled as `Nat`/`Int`; fallible calls return
`Except`; process-global mutable state is passed explicitly.
-/

namespace UnstructuredApi

/-! ### PageSplitter: `get_pdf_splits` (general.py, lines 76–95)

The Python generator walks an offset through the page list, emitting
`(pages[offset:offset+split_size], offset)` and advancing by
`split_size`.  Pages are abstracted by a type `α`; the serialized bytes
of a chunk are represented by the page sublist itself. -/

def getPdfSplitsAux (pages : List α) (split_size : Nat) (offset : Nat) :
    List (List α × Nat) :=
  if _h : 0 < split_size ∧ offset < pages.length then
    ((pages.drop offset).take split_size, offset) ::
      getPdfSplitsAux pages split_size (offset + split_size)
  else
    []
termination_by pages.length - offset
decreasing_by
  omega

/-- Embeds `get_pdf_splits(pdf_pages, split_size)`: the chunk list produced by
the Python generator, in yield order. -/
def get_pdf_splits (pages : List α) (split_size : Nat) : List (List α × Nat) :=
  getPdfSplitsAux pages split_size 0

/-! ### RetryPolicy: `is_non_retryable` and `call_api` (general.py, lines 99–136)

Errors raised out of the remote call are either FastAPI
`HTTPException`s carrying a status code, or arbitrary other exceptions
(transport failures, timeouts, programming errors). -/

inductive ApiErr where
  | http (statusCode : Nat) (detail : String)
  | other (msg : String)
deriving DecidableEq, Repr

/-- Embeds `is_non_retryable(e)`: `True` for anything that is not an
`HTTPException`, else `400 <= e.status_code < 500`. -/
def is_non_retryable : ApiErr → Bool
  | .http s _ => decide (400 ≤ s ∧ s < 500)
  | .other _ => true

/-- Semantics of `@backoff.on_exception(backoff.expo, HTTPException,
max_tries=…, giveup=is_non_retryable)` around the target call.

`target n` is the outcome of the `n`-th invocation (0-based); `fuel` is
the number of tries still allowed.  `backoff` only intercepts
`HTTPException`; any other exception propagates at once.  An
intercepted exception is re-raised when `giveup` holds or tries are
exhausted, otherwise the call is retried after a backoff sleep (timing
is irrelevant to the result and not modelled).  Returns the final
outcome together with the number of invocations actually made. -/
def backoffRun (target : Nat → Except ApiErr String) :
    Nat → Nat → Except ApiErr String × Nat
  | _, 0 => (.error (.other "max_tries exhausted before first try"), 0)
  | attempt, fuel + 1 =>
    match target attempt with
    | .ok v => (.ok v, 1)
    | .error (.other m) => (.error (.other m), 1)
    | .error (.http s d) =>
      if is_non_retryable (.http s d) then (.error (.http s d), 1)
      else if fuel = 0 then (.error (.http s d), 1)
      else
        let r := backoffRun target (attempt + 1) fuel
        (r.1, r.2 + 1)

/-- Embeds `call_api` wrapped by the backoff decorator with
`max_tries = UNSTRUCTURED_PARALLEL_RETRY_ATTEMPTS + 1` total tries. -/
def call_api (maxTries : Nat) (target : Nat → Except ApiErr String) :
    Except ApiErr String × Nat :=
  backoffRun target 0 maxTries

/-- Default for `UNSTRUCTURED_PARALLEL_RETRY_ATTEMPTS` (retries beyond
the first try). -/
def UNSTRUCTURED_PARALLEL_RETRY_ATTEMPTS_DEFAULT : Nat := 2

/-- Default total tries: retries + 1. -/
def default_max_tries : Nat := UNSTRUCTURED_PARALLEL_RETRY_ATTEMPTS_DEFAULT + 1

/-- Spec-side notion used by the retry claim: does the error carry an
explicit client-error status in the 400–499 range? -/
def carries_client_error_status : ApiErr → Bool
  | .http s _ => decide (400 ≤ s ∧ s < 500)
  | .other _ => false

/-! ### FanOutDispatcher: `partition_file_via_api` and `partition_pdf_splits`
(general.py, lines 139–226)

The remote sibling endpoint (the configured
`UNSTRUCTURED_PARALLEL_MODE_URL` target) is an external collaborator: it
is a parameter `remote chunkPages starting_page_number` returning the
element list parsed from its JSON response.  The local
`unstructured.partition.auto.partition` call is likewise a parameter. -/

/-- One extracted content element; only the fields relevant to page
ordering are modelled. -/
structure Element where
  text : String
  page_number : Nat
deriving DecidableEq, Repr

/-- Embeds `partition_file_via_api(file_tuple, …)`: rebases
`starting_page_number` by the chunk's page offset and performs the
remote call (the retry wrapper is modelled separately by `call_api`). -/
def partition_file_via_api (remote : List α → Nat → List Element)
    (starting_page_number : Nat) (file_tuple : List α × Nat) : List Element :=
  remote file_tuple.1 (starting_page_number + file_tuple.2)

/-- Embeds `partition_pdf_splits(request, pdf_pages, …)`: process locally when
the page count fits in one chunk, otherwise fan out over
`get_pdf_splits` and extend `results` in the order `executor.map`
yields them, which is chunk submission order. -/
def partition_pdf_splits (remote localPartition : List α → Nat → List Element)
    (starting_page_number : Nat) (pdf_pages : List α) (pages_per_pdf : Nat) :
    List Element :=
  if pdf_pages.length ≤ pages_per_pdf then
    localPartition pdf_pages starting_page_number
  else
    ((get_pdf_splits pdf_pages pages_per_pdf).map
        (partition_file_via_api remote starting_page_number)).flatten

/-- Fan-in model of the `ThreadPoolExecutor`: each worker, on
completion, stores its result into the future slot for its chunk index;
`completions` lists the (index, result) pairs in completion order. -/
def applyCompletions (slots : List (Option β)) (completions : List (Nat × β)) :
    List (Option β) :=
  completions.foldl (fun acc c => acc.set c.1 (some c.2)) slots

/-- Models the `executor.map` fan-in: once all slots are filled, results are read
back in chunk index order and concatenated (`results.extend`). -/
def collectInOrder (n : Nat) (completions : List (Nat × List Element)) :
    List Element :=
  ((applyCompletions (List.replicate n none) completions).map
      (fun o => o.getD [])).flatten

/-! ### AdmissionGate: `MemoryCheckMiddleware` and `healthcheck`
(app.py, lines 134–180)

Process-global state `is_memory_low` / `active_requests` is passed
explicitly; the `request_lock`-guarded read-modify-writes become the
explicit arithmetic below (the middleware body has no other
interleaving points touching these variables). -/

structure AppState where
  is_memory_low : Bool
  active_requests : Int
deriving DecidableEq, Repr

/-- Outcome of `await call_next(request)`: a response with a status
code, or a propagating exception. -/
inductive HandlerOutcome where
  | response (statusCode : Nat)
  | exn (msg : String)
deriving DecidableEq, Repr

/-- What the middleware dispatch produces: a raised `HTTPException`, a
passed-through response, or a propagated exception. -/
inductive MWResult where
  | httpError (statusCode : Nat) (detail : String)
  | response (statusCode : Nat)
  | exn (msg : String)
deriving DecidableEq, Repr

/-- Dispatch trace: the result, the value of `active_requests` observed
while `call_next` was running (`none` when the request never reached
it), and the final global state. -/
structure MWTrace where
  result : MWResult
  duringCount : Option Int
  final : AppState
deriving DecidableEq, Repr

def GENERAL_PATH : String := "/general/v0/general"

/-- Embeds `MemoryCheckMiddleware.dispatch`: reject with 503 when memory is
low; otherwise increment `active_requests` under the lock, run the
inner handler inside `try`, and decrement in the `finally` block on
every exit path. -/
def memoryCheckDispatch (path : String) (st : AppState)
    (call_next : HandlerOutcome) : MWTrace :=
  if path = GENERAL_PATH then
    if st.is_memory_low then
      { result := .httpError 503 "Service is currently unavailable due to low memory",
        duringCount := none,
        final := st }
    else
      let during := st.active_requests + 1
      { result :=
          match call_next with
          | .response s => .response s
          | .exn m => .exn m,
        duringCount := some during,
        final := { st with active_requests := during - 1 } }
  else
    { result :=
        match call_next with
        | .response s => .response s
        | .exn m => .exn m,
      duringCount := none,
      final := st }

/-- The JSON body (plus status code) produced by `healthcheck` in
app.py. -/
structure HealthResponse where
  status_code : Nat
  status : String
  memory_status : String
  active_requests : Int
deriving DecidableEq, Repr

/-- Embeds `healthcheck` (app.py, lines 134–155) as a function of the global
state after `_check_free_memory()` has refreshed it. -/
def healthcheck (is_memory_low : Bool) (active_requests : Int) : HealthResponse :=
  if is_memory_low then
    let sc : Nat := if active_requests = 0 then 503 else 200
    { status_code := sc,
      status := if sc = 503 then "UNHEALTHY" else "DEGRADED",
      memory_status := "LOW",
      active_requests := active_requests }
  else
    { status_code := 200,
      status := "HEALTHY",
      memory_status := "OK",
      active_requests := active_requests }

/-! ### Memory check: `check_memory` (events.py, lines 50–68) -/

/-- Constant `MEMORY_THRESHOLD = 0.8`; the Python float literal is modelled as
the exact rational it denotes in the comparisons below (the claims'
inputs are far from the representation boundary). -/
def MEMORY_THRESHOLD : ℚ := 8 / 10

/-- Embeds `check_memory()` given the `(usage, limit)` pair returned by
`get_memory_info()` (either may be unavailable, e.g. a cgroup-v2
`memory.max` of `"max"`): the new value of `is_memory_low`. -/
def check_memory (usage limit : Option Nat) : Bool :=
  match usage, limit with
  | some u, some l => decide ((u : ℚ) ≥ (l : ℚ) * MEMORY_THRESHOLD)
  | _, _ => false

/-- Modelled from the spec: `_check_free_memory`, which app.py imports
from general.py but which is absent from the source tree.  In the
alternate deployment mode the memory-low condition is free memory
(`limit - usage`) falling below an absolute floor, configured by
`UNSTRUCTURED_MEMORY_FREE_MINIMUM_MB` with default 2048 MB. -/
def check_free_memory_low (usageMB limitMB floorMB : Nat) : Bool :=
  decide (limitMB - usageMB < floorMB)

/-- Modelled from the spec: default absolute free-memory floor, in MB. -/
def MEMORY_FREE_MINIMUM_MB_DEFAULT : Nat := 2048

/-! ### ReadyState tracking: `NotReadyMarkingMiddleware` and
`update_state` (events.py, lines 71–135) -/

structure ReadyConfig where
  use_max_requests_limit : Bool
  make_not_ready_when_processing : Bool
  max_requests : Nat
deriving DecidableEq, Repr

structure ReadyState where
  processed_requests : Nat
  is_ready : Bool
  is_live : Bool
  is_processing : Bool
deriving DecidableEq, Repr

/-- Embeds `update_state()` (events.py, lines 71–79). -/
def update_state (cfg : ReadyConfig) (st : ReadyState) : ReadyState :=
  if cfg.use_max_requests_limit then
    if st.processed_requests ≥ cfg.max_requests then
      { st with is_ready := false, is_live := false }
    else
      { st with is_ready := true, is_live := true }
  else
    { st with is_ready := true, is_live := true }

/-- Embeds `NotReadyMarkingMiddleware.dispatch` on its target path, for a
request whose inner handler returns a response with status
`innerStatus`: yields the response status sent to the client and the
final global state.  The rejection guard returns 503 untouched;
otherwise the middleware saves the four globals, marks processing
(and, in the stricter mode, not-ready), runs the handler, restores the
saved values when the response status is 400 or 422 (the `finally`
block is skipped for those statuses), and otherwise counts the request
and re-derives readiness. -/
def notReadyDispatch (cfg : ReadyConfig) (st : ReadyState) (innerStatus : Nat) :
    Nat × ReadyState :=
  if (cfg.use_max_requests_limit ∧ st.is_ready = false) ∨ st.is_live = false
      ∨ (cfg.make_not_ready_when_processing ∧ st.is_processing = true) then
    (503, st)
  else
    let st1 : ReadyState :=
      { st with
        is_ready := if cfg.make_not_ready_when_processing then false else st.is_ready,
        is_processing := true }
    if innerStatus = 422 ∨ innerStatus = 400 then
      (innerStatus, st)
    else
      let st2 : ReadyState :=
        { st1 with processed_requests := st1.processed_requests + 1 }
      (innerStatus, update_state cfg { st2 with is_processing := false })

/-! ### ResponseAssembler: CSV outer merge (`join_responses`,
general.py lines 800–820)

`pd.read_csv` turns each per-file CSV rendering into a table; with
identical column sets, `DataFrame.merge(…, how="outer")` joins on all
columns, so the join key is the entire row.  `outerMerge` captures the
resulting row multiset: each left row paired with every equal right
row (or kept alone when unmatched), plus the unmatched right rows.
Output row order (pandas sorts outer-join keys) is not modelled; the
claims concern row counts only. -/

def outerMerge [DecidableEq ρ] (xs ys : List ρ) : List ρ :=
  (xs.flatMap fun r =>
    let ms := ys.filter (fun r2 => r2 == r)
    if ms.isEmpty then [r] else ms.map (fun _ => r))
  ++ ys.filter (fun r2 => !xs.contains r2)

/-! ### ResponseAssembler: multipart/mixed streaming
(`MultipartMixedResponse`, general.py lines 575–623)

Bytes are `Nat` lists; header text and boundary tokens are ASCII, so
their UTF-8 bytes coincide with the character code points. -/

def CRLF : List Nat := [13, 10]

/-- Bytes of an ASCII string. -/
def asciiBytes (s : String) : List Nat := s.data.map Char.toNat

/-- The RFC 4648 base64 alphabet, as a byte. -/
def base64Char (n : Nat) : Nat :=
  if n < 26 then 65 + n
  else if n < 52 then 97 + (n - 26)
  else if n < 62 then 48 + (n - 52)
  else if n = 62 then 43
  else 47

/-- Embeds `base64.b64encode` on a byte list (RFC 4648, `=`-padded; `=` is
byte 61). -/
def b64encode : List Nat → List Nat
  | [] => []
  | [b1] =>
    let u := b1 % 256
    [base64Char (u / 4), base64Char (u % 4 * 16), 61, 61]
  | [b1, b2] =>
    let u := b1 % 256
    let v := b2 % 256
    [base64Char (u / 4), base64Char (u % 4 * 16 + v / 16),
      base64Char (v % 16 * 4), 61]
  | b1 :: b2 :: b3 :: rest =>
    let u := b1 % 256
    let v := b2 % 256
    let w := b3 % 256
    base64Char (u / 4) :: base64Char (u % 4 * 16 + v / 16) ::
      base64Char (v % 16 * 4 + w / 64) :: base64Char (w % 64) :: b64encode rest

/-- Builds `--` plus the per-response random boundary token
(`secrets.token_hex(16)`), fixed for the whole response. -/
def boundary (boundary_value : String) : List Nat :=
  asciiBytes ("--" ++ boundary_value)

/-- Models the `part_headers` dict built in `build_part`, in insertion
order. -/
def part_headers (content_type : Option String) (chunk : List Nat) :
    List (String × String) :=
  [("Content-Length", toString chunk.length),
      ("Content-Transfer-Encoding", "base64")]
    ++ (match content_type with
        | some ct => [("Content-Type", ct)]
        | none => [])

/-- Embeds `_build_part_headers`. -/
def build_part_headers (headers : List (String × String)) : List Nat :=
  headers.foldl (fun acc hv => acc ++ asciiBytes (hv.1 ++ ": " ++ hv.2) ++ CRLF) []

/-- Embeds `build_part(chunk)`: boundary line, headers, blank line, body,
trailing CRLF. -/
def build_part (boundary_value : String) (content_type : Option String)
    (chunk : List Nat) : List Nat :=
  boundary boundary_value ++ CRLF
    ++ build_part_headers (part_headers content_type chunk)
    ++ CRLF ++ chunk ++ CRLF

/-- One `http.response.body` ASGI message. -/
structure BodyFrame where
  body : List Nat
  more_body : Bool
deriving DecidableEq, Repr

/-- Embeds `stream_response`: each yielded chunk (the charset-encoded bytes of
one file's rendered payload, always a `str` from the response
generator) is base64-encoded, framed by `build_part` and sent with
`more_body=True`; the stream ends with one empty frame with
`more_body=False`. -/
def stream_response (boundary_value : String) (content_type : Option String)
    (chunks : List (List Nat)) : List BodyFrame :=
  chunks.map
      (fun c => { body := build_part boundary_value content_type (b64encode c),
                  more_body := true })
    ++ [{ body := [], more_body := false }]

/-! ## Theorems -/

/-! ### PageSplitter lemmas -/

theorem getPdfSplitsAux_getElem? (pages : List α) {C : Nat} (hC : 0 < C) :
    ∀ (k offset : Nat),
      (getPdfSplitsAux pages C offset)[k]? =
        if offset + k * C < pages.length then
          some ((pages.drop (offset + k * C)).take C, offset + k * C)
        else none := by
  intro k
  induction k with
  | zero =>
    intro offset
    rw [getPdfSplitsAux]
    by_cases h : offset < pages.length
    · rw [dif_pos ⟨hC, h⟩]
      simp [h]
    · rw [dif_neg (fun hh => h hh.2)]
      simp [h]
  | succ k ih =>
    intro offset
    rw [getPdfSplitsAux]
    by_cases h : offset < pages.length
    · rw [dif_pos ⟨hC, h⟩]
      have harith : offset + C + k * C = offset + (k + 1) * C := by ring
      simpa [harith] using ih (offset + C)
    · rw [dif_neg (fun hh => h hh.2)]
      have hle := Nat.le_add_right offset ((k + 1) * C)
      have : ¬ (offset + (k + 1) * C < pages.length) := by omega
      simp [this]

theorem getPdfSplitsAux_length (pages : List α) {C : Nat} (hC : 0 < C) :
    ∀ offset, (getPdfSplitsAux pages C offset).length
      = (pages.length - offset + C - 1) / C := by
  have main : ∀ d offset, pages.length - offset ≤ d →
      (getPdfSplitsAux pages C offset).length
        = (pages.length - offset + C - 1) / C := by
    intro d
    induction d with
    | zero =>
      intro offset h0
      rw [getPdfSplitsAux, dif_neg (fun hh => by omega)]
      have h1 : pages.length - offset = 0 := by omega
      rw [h1, Nat.zero_add, Nat.div_eq_of_lt (by omega)]
      rfl
    | succ d ih =>
      intro offset h
      rw [getPdfSplitsAux]
      by_cases hlt : offset < pages.length
      · rw [dif_pos ⟨hC, hlt⟩]
        have hrec := ih (offset + C) (by omega)
        simp only [List.length_cons, hrec]
        have he : 1 ≤ pages.length - offset := by omega
        have h1 : pages.length - offset + C - 1 = (pages.length - offset - 1) + C := by
          omega
        rw [h1, Nat.add_div_right _ hC]
        by_cases hec : pages.length - offset ≤ C
        · have h2 : pages.length - (offset + C) + C - 1 = C - 1 := by omega
          have h3 : pages.length - offset - 1 < C := by omega
          rw [h2, Nat.div_eq_of_lt (by omega), Nat.div_eq_of_lt h3]
        · have h2 : pages.length - (offset + C) + C - 1
              = pages.length - offset - 1 := by omega
          rw [h2]
      · rw [dif_neg (fun hh => hlt hh.2)]
        have h1 : pages.length - offset = 0 := by omega
        rw [List.length_nil, h1, Nat.zero_add, Nat.div_eq_of_lt (by omega)]
  intro offset
  exact main (pages.length - offset) offset le_rfl

/-- C5: for chunk size `C ≥ 1` the splitter produces a deterministic
non-overlapping partition: `⌈P/C⌉` chunks in total, chunk `k` covering
pages `[k·C, min((k+1)·C, P))` (i.e. `(pages.drop (k·C)).take C`) and
carrying starting page offset `k·C`; and when `P ≤ C` the dispatcher
skips fan-out entirely, routing the whole file to a single local
partition call. -/
theorem pdf_splitter_deterministic_partition
    (pages : List α) (C : Nat) (hC : 0 < C)
    (remote localPartition : List α → Nat → List Element) (base : Nat) :
    (get_pdf_splits pages C).length = (pages.length + C - 1) / C
    ∧ (∀ k : Nat, (get_pdf_splits pages C)[k]? =
        if k * C < pages.length then
          some ((pages.drop (k * C)).take C, k * C)
        else none)
    ∧ (pages.length ≤ C →
        partition_pdf_splits remote localPartition base pages C
          = localPartition pages base) := by
  refine ⟨?_, ?_, ?_⟩
  · simpa using getPdfSplitsAux_length pages hC 0
  · intro k
    simpa using getPdfSplitsAux_getElem? pages hC k 0
  · intro h
    rw [partition_pdf_splits, if_pos h]

/-- Witness for C5 at the spec's 10-page, chunk-size-3 scenario. -/
theorem pdf_splitter_deterministic_partition_witness :
    0 < 3 ∧ (get_pdf_splits (List.range 10) 3).length = (10 + 3 - 1) / 3 :=
  ⟨by decide,
    by
      have h := pdf_splitter_deterministic_partition (List.range 10) 3 (by decide)
        (fun _ _ => []) (fun _ _ => []) 1
      simpa using h.1⟩

/-! ### RetryPolicy lemmas -/

theorem backoffRun_succeeds (target : Nat → Except ApiErr String) (v : String)
    (S : Nat → Nat) (D : Nat → String) :
    ∀ (j a fuel : Nat), j < fuel →
      (∀ k, k < j → target (a + k) = .error (.http (S (a + k)) (D (a + k)))
        ∧ ¬ (400 ≤ S (a + k) ∧ S (a + k) < 500)) →
      target (a + j) = .ok v →
      backoffRun target a fuel = (.ok v, j + 1) := by
  intro j
  induction j with
  | zero =>
    intro a fuel hj hfail hok
    obtain ⟨f, rfl⟩ : ∃ f, fuel = f + 1 := ⟨fuel - 1, by omega⟩
    simp only [Nat.add_zero] at hok
    simp only [backoffRun, hok]
  | succ j ih =>
    intro a fuel hj hfail hok
    obtain ⟨f, rfl⟩ : ∃ f, fuel = f + 1 := ⟨fuel - 1, by omega⟩
    have h0 := hfail 0 (by omega)
    simp only [Nat.add_zero] at h0
    have hnr : is_non_retryable (.http (S a) (D a)) = false := by
      simpa [is_non_retryable] using h0.2
    have hf : f ≠ 0 := by omega
    have hshift : ∀ k, a + 1 + k = a + (k + 1) := by omega
    have hrec := ih (a + 1) f (by omega)
      (fun k hk => by rw [hshift k]; exact hfail (k + 1) (by omega))
      (by rw [hshift j]; exact hok)
    simp only [backoffRun, h0.1, hnr, hf, Bool.false_eq_true, if_false, hrec]

theorem backoffRun_exhausts (target : Nat → Except ApiErr String)
    (S : Nat → Nat) (D : Nat → String) :
    ∀ (fuel a : Nat), 1 ≤ fuel →
      (∀ k, k < fuel → target (a + k) = .error (.http (S (a + k)) (D (a + k)))
        ∧ ¬ (400 ≤ S (a + k) ∧ S (a + k) < 500)) →
      backoffRun target a fuel
        = (.error (.http (S (a + fuel - 1)) (D (a + fuel - 1))), fuel) := by
  intro fuel
  induction fuel with
  | zero =>
    intro a h
    omega
  | succ f ih =>
    intro a _ hfail
    have h0 := hfail 0 (by omega)
    simp only [Nat.add_zero] at h0
    have hnr : is_non_retryable (.http (S a) (D a)) = false := by
      simpa [is_non_retryable] using h0.2
    by_cases hf0 : f = 0
    · subst hf0
      simp only [backoffRun, h0.1, hnr, Bool.false_eq_true, if_false, if_true]
      rfl
    · have hshift : ∀ k, a + 1 + k = a + (k + 1) := by omega
      have hrec := ih (a + 1) (by omega)
        (fun k hk => by rw [hshift k]; exact hfail (k + 1) (by omega))
      have harith : a + 1 + f - 1 = a + (f + 1) - 1 := by omega
      simp only [backoffRun, h0.1, hnr, hf0, Bool.false_eq_true, if_false, hrec,
        harith]

theorem backoffRun_giveup (target : Nat → Except ApiErr String)
    (s : Nat) (d : String) (M : Nat) (h4 : 400 ≤ s) (h5 : s < 500) (hM : 1 ≤ M)
    (h0 : target 0 = .error (.http s d)) :
    backoffRun target 0 M = (.error (.http s d), 1) := by
  obtain ⟨m, rfl⟩ : ∃ m, M = m + 1 := ⟨M - 1, by omega⟩
  have hnr : is_non_retryable (.http s d) = true := by
    simp only [is_non_retryable, decide_eq_true_eq]
    omega
  simp only [backoffRun, h0, hnr, if_true]

theorem backoffRun_other (target : Nat → Except ApiErr String)
    (m : String) (M : Nat) (hM : 1 ≤ M) (h0 : target 0 = .error (.other m)) :
    backoffRun target 0 M = (.error (.other m), 1) := by
  obtain ⟨f, rfl⟩ : ∃ f, M = f + 1 := ⟨M - 1, by omega⟩
  simp only [backoffRun, h0]

/-- C2 counterexample: a transport failure is not an `HTTPException`,
so it carries no 400–499 client-error status, yet the classifier marks
it non-retryable and the wrapped call is invoked exactly once — the
claim that every error without a 400–499 status is retried is false. -/
theorem retry_classifier_counterexample :
    carries_client_error_status (ApiErr.other "connection timeout") = false
    ∧ is_non_retryable (ApiErr.other "connection timeout") = true
    ∧ call_api 3 (fun _ => .error (.other "connection timeout"))
        = (.error (.other "connection timeout"), 1) := by
  exact ⟨rfl, rfl, backoffRun_other _ _ 3 (by omega) rfl⟩

/-- C2 (amended): the retry classifier treats an error as retryable
exactly when it is an `HTTPException` whose status lies outside
400–499.  A 400–499 `HTTPException` is never retried; a retryable
`HTTPException` (any 5xx) is retried up to the configured maximum
number of attempts; a non-`HTTPException` error (transport failure,
timeout) propagates after a single invocation, without retry. -/
theorem retry_classifier_amended (s : Nat) (d m : String) (M : Nat) (hM : 1 ≤ M) :
    (∀ e, is_non_retryable e = false
        ↔ ∃ s' d', e = ApiErr.http s' d' ∧ ¬ (400 ≤ s' ∧ s' < 500))
    ∧ (¬ (400 ≤ s ∧ s < 500) →
        call_api M (fun _ => .error (.http s d)) = (.error (.http s d), M))
    ∧ (400 ≤ s → s < 500 →
        call_api M (fun _ => .error (.http s d)) = (.error (.http s d), 1))
    ∧ call_api M (fun _ => .error (.other m)) = (.error (.other m), 1) := by
  refine ⟨?_, ?_, ?_, ?_⟩
  · intro e
    cases e with
    | http s' d' =>
      simp only [is_non_retryable, decide_eq_false_iff_not, ApiErr.http.injEq]
      constructor
      · intro h
        exact ⟨s', d', ⟨rfl, rfl⟩, h⟩
      · rintro ⟨s'', d'', ⟨rfl, rfl⟩, h⟩
        exact h
    | other m' => simp [is_non_retryable]
  · intro hns
    have := backoffRun_exhausts (fun _ => .error (.http s d)) (fun _ => s)
      (fun _ => d) M 0 hM (fun k _ => ⟨rfl, hns⟩)
    simpa [call_api] using this
  · intro h4 h5
    exact backoffRun_giveup _ s d M h4 h5 hM rfl
  · exact backoffRun_other _ m M hM rfl

/-- Witness for the amended C2 at concrete inputs. -/
theorem retry_classifier_amended_witness :
    1 ≤ 3
    ∧ call_api 3 (fun _ => Except.error (ApiErr.other "boom"))
        = (Except.error (ApiErr.other "boom"), 1) :=
  ⟨by decide, (retry_classifier_amended 500 "d" "boom" 3 (by decide)).2.2.2⟩

/-- C3: retry bound — with a target that fails with a 500 exactly `N`
times and then succeeds, `maxTries = N+1` yields success after exactly
`N+1` invocations; `maxTries = N` fails after exactly `N` invocations,
re-raising the last error unchanged (status classification preserved);
and a 400-class error causes exactly one invocation and no retry. -/
theorem retry_bound (N : Nat) (v : String) (errs : Nat → String)
    (target : Nat → Except ApiErr String)
    (hfail : ∀ k, k < N → target k = .error (.http 500 (errs k)))
    (hok : target N = .ok v) :
    call_api (N + 1) target = (.ok v, N + 1)
    ∧ (1 ≤ N → call_api N target = (.error (.http 500 (errs (N - 1))), N))
    ∧ (∀ (tgt : Nat → Except ApiErr String) (s : Nat) (d : String) (M : Nat),
        400 ≤ s → s < 500 → 1 ≤ M → tgt 0 = .error (.http s d) →
        call_api M tgt = (.error (.http s d), 1)) := by
  refine ⟨?_, ?_, ?_⟩
  · have := backoffRun_succeeds target v (fun _ => 500) errs N 0 (N + 1)
      (by omega)
      (fun k hk => ⟨by simpa using hfail k hk, by simp⟩)
      (by simpa using hok)
    simpa [call_api] using this
  · intro hN
    have := backoffRun_exhausts target (fun _ => 500) errs N 0 hN
      (fun k hk => ⟨by simpa using hfail k hk, by simp⟩)
    simpa [call_api] using this
  · intro tgt s d M h4 h5 hM h0
    exact backoffRun_giveup tgt s d M h4 h5 hM h0

/-- Witness for C3 with `N = 2`: two 500 failures, then success, with
three total tries allowed. -/
theorem retry_bound_witness :
    ((fun k => if k < 2 then Except.error (ApiErr.http 500 "err")
        else Except.ok "done") 2 = Except.ok "done")
    ∧ call_api 3 (fun k => if k < 2 then Except.error (ApiErr.http 500 "err")
        else Except.ok "done") = (Except.ok "done", 3) :=
  ⟨by rfl,
    (retry_bound 2 "done" (fun _ => "err")
      (fun k => if k < 2 then Except.error (ApiErr.http 500 "err")
        else Except.ok "done")
      (fun k hk => by
        have hk' : k = 0 ∨ k = 1 := by omega
        rcases hk' with rfl | rfl <;> rfl)
      (by rfl)).1⟩

/-! ### AdmissionGate theorems -/

/-- C4: when the memory-low flag is set, admission rejects the request
with a 503 and never increments the active-request counter; otherwise
the counter is incremented by exactly 1 under the lock before
processing and decremented on every exit path (response or propagating
exception), so after the request completes the counter has returned to
its pre-request value, the handler outcome passing through unchanged. -/
theorem admission_gate_correct (st : AppState) (call_next : HandlerOutcome) :
    (st.is_memory_low = true →
      memoryCheckDispatch GENERAL_PATH st call_next =
        { result := .httpError 503 "Service is currently unavailable due to low memory",
          duringCount := none,
          final := st })
    ∧ (st.is_memory_low = false →
        (memoryCheckDispatch GENERAL_PATH st call_next).duringCount
            = some (st.active_requests + 1)
        ∧ (memoryCheckDispatch GENERAL_PATH st call_next).final = st
        ∧ (memoryCheckDispatch GENERAL_PATH st call_next).result
            = (match call_next with
                | .response s => MWResult.response s
                | .exn m => MWResult.exn m)) := by
  obtain ⟨ml, ar⟩ := st
  constructor
  · intro h
    simp only at h
    subst h
    simp [memoryCheckDispatch]
  · intro h
    simp only at h
    subst h
    refine ⟨?_, ?_, ?_⟩ <;> simp [memoryCheckDispatch]

/-- Witness for C4: an admitted request leaves the counter at its
pre-request value. -/
theorem admission_gate_correct_witness :
    (AppState.mk false 0).is_memory_low = false
    ∧ (memoryCheckDispatch GENERAL_PATH (AppState.mk false 0)
        (HandlerOutcome.response 200)).final = AppState.mk false 0 :=
  ⟨rfl, ((admission_gate_correct (AppState.mk false 0)
      (HandlerOutcome.response 200)).2 rfl).2.1⟩

/-- C7 counterexample: with the memory-low flag set and one active
request, the health endpoint reports `DEGRADED` with HTTP 200, not
`UNHEALTHY`, refuting "UNHEALTHY whenever the memory-low flag is
set". -/
theorem healthcheck_counterexample :
    (healthcheck true 1).status = "DEGRADED"
    ∧ ¬ (healthcheck true 1).status = "UNHEALTHY" := by
  exact ⟨rfl, by decide⟩

/-- C7 (amended): the health probe reports `UNHEALTHY` (503) when the
memory-low flag is set and no request is active, `DEGRADED` (200) when
it is set while requests are active, and `HEALTHY` (200) otherwise,
always carrying the active-request count and a memory status; the
probe only reads the admission state and never gates traffic. -/
theorem healthcheck_amended (a : Int) :
    healthcheck false a = ⟨200, "HEALTHY", "OK", a⟩
    ∧ healthcheck true 0 = ⟨503, "UNHEALTHY", "LOW", 0⟩
    ∧ (a ≠ 0 → healthcheck true a = ⟨200, "DEGRADED", "LOW", a⟩) := by
  refine ⟨rfl, rfl, ?_⟩
  intro h
  simp [healthcheck, h]

/-- Witness for the amended C7 with one active request. -/
theorem healthcheck_amended_witness :
    (1 : Int) ≠ 0
    ∧ healthcheck true 1 = ⟨200, "DEGRADED", "LOW", 1⟩ :=
  ⟨by decide, (healthcheck_amended 1).2.2 (by decide)⟩

/-! ### Memory check theorems -/

/-- C6: the memory check sets the memory-low flag exactly when
`usage ≥ 0.8 × limit` (equivalently `10·usage ≥ 8·limit`); the
spec-modelled alternate mode flags low memory exactly when
`limit − usage` falls below the absolute floor, whose default is
2048 MB; and with limit 1000 MB, usage 850 MB yields a set flag while
usage 700 MB does not. -/
theorem memory_check_threshold (u l usageMB limitMB floorMB : Nat) :
    (check_memory (some u) (some l) = true ↔ 10 * u ≥ 8 * l)
    ∧ check_memory (some (850 * 1024 * 1024)) (some (1000 * 1024 * 1024)) = true
    ∧ check_memory (some (700 * 1024 * 1024)) (some (1000 * 1024 * 1024)) = false
    ∧ (check_free_memory_low usageMB limitMB floorMB = true
        ↔ limitMB - usageMB < floorMB)
    ∧ MEMORY_FREE_MINIMUM_MB_DEFAULT = 2048 := by
  have hiff : ∀ u' l' : Nat,
      check_memory (some u') (some l') = true ↔ 10 * u' ≥ 8 * l' := by
    intro u' l'
    simp only [check_memory, MEMORY_THRESHOLD, decide_eq_true_eq, ge_iff_le]
    rw [show ((l' : ℚ) * (8 / 10)) = (8 * l' : ℚ) / 10 by ring,
      div_le_iff₀ (by norm_num : (0 : ℚ) < 10)]
    rw [show ((u' : ℚ) * 10) = ((10 * u' : Nat) : ℚ) by push_cast; ring]
    exact_mod_cast Iff.rfl
  refine ⟨hiff u l, ?_, ?_, ?_, rfl⟩
  · rw [hiff]
    norm_num
  · rw [check_memory, decide_eq_false_iff_not]
    rw [show ((1000 * 1024 * 1024 : Nat) : ℚ) * MEMORY_THRESHOLD
        = (838860800 : ℚ) by norm_num [MEMORY_THRESHOLD]]
    push_cast
    norm_num
  · simp [check_free_memory_low]

/-- Witness for C6 at the spec's 1000 MB / 850 MB scenario. -/
theorem memory_check_threshold_witness :
    check_memory (some (850 * 1024 * 1024)) (some (1000 * 1024 * 1024)) = true :=
  (memory_check_threshold 0 0 0 0 0).2.1

/-! ### ReadyState middleware theorems -/

/-- C10 counterexample: once the maximum-requests limit has been
reached (`USE_MAX_REQUESTS_LIMIT` with `MAX_REQUESTS = 1` and one
processed request, so `update_state` has cleared `is_ready` and
`is_live`), the next partition request is rejected by the middleware's
guard and finishes with status 503 — a status other than 400 and 422 —
yet `processed_requests` stays at its pre-request value 1 instead of
being incremented by 1, refuting the claim's unconditional
"any other status increments by exactly 1" clause. -/
theorem ready_middleware_guard_counterexample :
    (notReadyDispatch (ReadyConfig.mk true false 1)
        (ReadyState.mk 1 false false false) 200).1 = 503
    ∧ (notReadyDispatch (ReadyConfig.mk true false 1)
        (ReadyState.mk 1 false false false) 200).1 ≠ 400
    ∧ (notReadyDispatch (ReadyConfig.mk true false 1)
        (ReadyState.mk 1 false false false) 200).1 ≠ 422
    ∧ (notReadyDispatch (ReadyConfig.mk true false 1)
        (ReadyState.mk 1 false false false) 200).2.processed_requests = 1 := by
  decide

/-- C10 (amended): for an admitted request to the partition endpoint —
one that passes the middleware's not-ready/not-live/processing guard —
a response with status 400 or 422 leaves the probe state unchanged:
`is_ready`, `is_live`, `is_processing` and `processed_requests` are all
restored to their pre-request values, so the request never counts
toward the configured maximum-requests limit; an admitted request
finishing with any other status increments `processed_requests` by
exactly 1.  (A guard-rejected request instead finishes 503 with the
state untouched.) -/
theorem ready_middleware_restores_on_client_error (cfg : ReadyConfig)
    (st : ReadyState) (s : Nat)
    (hallowed : ¬ ((cfg.use_max_requests_limit ∧ st.is_ready = false)
      ∨ st.is_live = false
      ∨ (cfg.make_not_ready_when_processing ∧ st.is_processing = true))) :
    ((s = 400 ∨ s = 422) → notReadyDispatch cfg st s = (s, st))
    ∧ (s ≠ 400 → s ≠ 422 →
        (notReadyDispatch cfg st s).2.processed_requests
          = st.processed_requests + 1) := by
  constructor
  · intro hs
    rw [notReadyDispatch, if_neg hallowed, if_pos (by tauto)]
  · intro h4 h42
    rw [notReadyDispatch, if_neg hallowed, if_neg (by tauto)]
    simp only [update_state]
    split
    · split <;> rfl
    · rfl

/-- Witness for C10: a 400 response restores the exact pre-request
state. -/
theorem ready_middleware_restores_on_client_error_witness :
    (¬ (((ReadyConfig.mk false false 1).use_max_requests_limit
          ∧ (ReadyState.mk 0 true true false).is_ready = false)
      ∨ (ReadyState.mk 0 true true false).is_live = false
      ∨ ((ReadyConfig.mk false false 1).make_not_ready_when_processing
          ∧ (ReadyState.mk 0 true true false).is_processing = true)))
    ∧ notReadyDispatch (ReadyConfig.mk false false 1)
        (ReadyState.mk 0 true true false) 400
        = (400, ReadyState.mk 0 true true false) :=
  ⟨by decide,
    (ready_middleware_restores_on_client_error (ReadyConfig.mk false false 1)
      (ReadyState.mk 0 true true false) 400 (by decide)).1 (Or.inl rfl)⟩

/-! ### CSV outer-merge theorems -/

theorem outerMerge_of_disjoint {ρ : Type u} [DecidableEq ρ] (xs ys : List ρ)
    (hdisj : ∀ r ∈ xs, r ∉ ys) :
    outerMerge xs ys = xs ++ ys := by
  rw [outerMerge]
  have hleft : (xs.flatMap fun r =>
      let ms := ys.filter (fun r2 => r2 == r)
      if ms.isEmpty then [r] else ms.map (fun _ => r)) = xs := by
    rw [List.flatMap_congr (g := fun r => [r])]
    · exact List.flatMap_singleton' xs
    · intro r hr
      have hnil : ys.filter (fun r2 => r2 == r) = [] := by
        rw [List.filter_eq_nil_iff]
        intro b hb hbeq
        exact hdisj r hr (by rwa [← eq_of_beq hbeq])
      simp [hnil]
  have hright : ys.filter (fun r2 => !xs.contains r2) = ys := by
    rw [List.filter_eq_self]
    intro b hb
    have hbx : b ∉ xs := fun hbx => hdisj b hbx hb
    simpa using hbx
  rw [hleft, hright]

theorem outerMerge_self_of_nodup {ρ : Type u} [DecidableEq ρ] (xs : List ρ)
    (hnodup : xs.Nodup) :
    outerMerge xs xs = xs := by
  rw [outerMerge]
  have hleft : (xs.flatMap fun r =>
      let ms := xs.filter (fun r2 => r2 == r)
      if ms.isEmpty then [r] else ms.map (fun _ => r)) = xs := by
    rw [List.flatMap_congr (g := fun r => [r])]
    · exact List.flatMap_singleton' xs
    · intro r hr
      have hone : xs.filter (fun r2 => r2 == r) = [r] := by
        rw [List.filter_beq, List.count_eq_one_of_mem hnodup hr]
        rfl
      simp [hone]
  have hright : xs.filter (fun r2 => !xs.contains r2) = [] := by
    rw [List.filter_eq_nil_iff]
    intro b hb
    simp [hb]
  rw [hleft, hright, List.append_nil]

/-- C8 counterexample: two single-row files with identical column sets
that contain the same row merge to a single row, not to the 2-row sum
of the per-file row counts. -/
theorem csv_outer_merge_counterexample :
    ¬ ((outerMerge [[(1 : Nat)]] [[(1 : Nat)]]).length
        = [[(1 : Nat)]].length + [[(1 : Nat)]].length) := by
  decide

/-- C8 (amended): the per-file CSV tables are combined by an outer join
across all columns; when the files' column sets are identical, the
merged row count equals the sum of the per-file row counts whenever the
two files share no row; merging a file whose rows are pairwise distinct
with itself yields the original row count; and merging files with
disjoint rows always yields `rows1 + rows2`. -/
theorem csv_outer_merge_amended {ρ : Type u} [DecidableEq ρ] (xs ys : List ρ)
    (hdisj : ∀ r ∈ xs, r ∉ ys) (hnodup : xs.Nodup) :
    (outerMerge xs ys).length = xs.length + ys.length
    ∧ outerMerge xs xs = xs := by
  constructor
  · rw [outerMerge_of_disjoint xs ys hdisj, List.length_append]
  · exact outerMerge_self_of_nodup xs hnodup

/-- Witness for the amended C8 on two disjoint duplicate-free files. -/
theorem csv_outer_merge_amended_witness :
    ((∀ r ∈ [[(1 : Nat)], [2]], r ∉ [[(3 : Nat)]]) ∧ [[(1 : Nat)], [2]].Nodup)
    ∧ (outerMerge [[(1 : Nat)], [2]] [[(3 : Nat)]]).length
        = [[(1 : Nat)], [2]].length + [[(3 : Nat)]].length :=
  ⟨⟨by decide, by decide⟩,
    (csv_outer_merge_amended [[(1 : Nat)], [2]] [[(3 : Nat)]]
      (by decide) (by decide)).1⟩

/-! ### Multipart/mixed streaming theorems -/

theorem b64encode_length : ∀ c : List Nat,
    (b64encode c).length = 4 * ((c.length + 2) / 3)
  | [] => by simp [b64encode]
  | [_] => by simp [b64encode]
  | [_, _] => by simp [b64encode]
  | b1 :: b2 :: b3 :: rest => by
    have ih := b64encode_length rest
    simp only [b64encode, List.length_cons, ih]
    have harith : rest.length + 1 + 1 + 1 + 2 = rest.length + 2 + 3 := by omega
    rw [harith, Nat.add_div_right _ (by omega)]
    ring

/-- C9: a streamed multipart/mixed response over `n` input files emits
exactly `n` body parts in file-submission order followed by one
terminating empty-body frame; every part is delimited by the same
boundary token; and each part carries a
`Content-Transfer-Encoding: base64` header and a `Content-Length`
header equal to the length of the base64-encoded body (which is
`4·⌈len/3⌉`). -/
theorem multipart_framing (bv : String) (ct : Option String)
    (chunks : List (List Nat)) :
    (stream_response bv ct chunks).length = chunks.length + 1
    ∧ (stream_response bv ct chunks).getLast? = some ⟨[], false⟩
    ∧ (∀ k, k < chunks.length → (stream_response bv ct chunks)[k]? =
        some ⟨build_part bv ct (b64encode (chunks.getD k [])), true⟩)
    ∧ (∀ body, (boundary bv ++ CRLF) <+: build_part bv ct body)
    ∧ (∀ body, (part_headers ct body).lookup "Content-Length"
          = some (toString body.length)
        ∧ (part_headers ct body).lookup "Content-Transfer-Encoding"
          = some "base64")
    ∧ (∀ c : List Nat, (b64encode c).length = 4 * ((c.length + 2) / 3)) := by
  refine ⟨?_, ?_, ?_, ?_, ?_, b64encode_length⟩
  · simp [stream_response]
  · simp [stream_response]
  · intro k hk
    rw [stream_response, List.getElem?_append_left (by simpa using hk),
      List.getElem?_map, List.getElem?_eq_getElem hk]
    rw [List.getD_eq_getElem chunks [] hk]
    rfl
  · intro body
    refine ⟨build_part_headers (part_headers ct body) ++ CRLF ++ body ++ CRLF, ?_⟩
    simp [build_part, List.append_assoc]
  · intro body
    exact ⟨rfl, rfl⟩

/-- Witness for C9 on a three-file response. -/
theorem multipart_framing_witness :
    (stream_response "b" none [[(1 : Nat)], [2], [3]]).length
      = [[(1 : Nat)], [2], [3]].length + 1 :=
  (multipart_framing "b" none [[(1 : Nat)], [2], [3]]).1

/-! ### FanOutDispatcher theorems -/

theorem applyCompletions_perm {β : Type u} (slots : List (Option β))
    (l₁ l₂ : List (Nat × β)) (hperm : l₁.Perm l₂)
    (hkeys : (l₁.map Prod.fst).Nodup) :
    applyCompletions slots l₁ = applyCompletions slots l₂ := by
  refine hperm.foldl_eq' ?_ slots
  intro x hx y hy z
  by_cases hxy : x = y
  · subst hxy
    rfl
  · have hne : x.1 ≠ y.1 := by
      intro he
      exact hxy (List.inj_on_of_nodup_map hkeys hx hy he)
    exact List.set_comm _ _ _ hne

theorem applyCompletions_enumFrom_replicate {β : Type u} :
    ∀ (xs : List β) (A : List (Option β)),
      applyCompletions (A ++ List.replicate xs.length none)
          (List.enumFrom A.length xs)
        = A ++ xs.map some := by
  intro xs
  induction xs with
  | nil =>
    intro A
    simp [applyCompletions]
  | cons x xs ih =>
    intro A
    show applyCompletions
        ((A ++ List.replicate (xs.length + 1) none).set A.length (some x))
        (List.enumFrom (A.length + 1) xs) = A ++ (some x :: xs.map some)
    have hset : (A ++ List.replicate (xs.length + 1) none).set A.length (some x)
        = (A ++ [some x]) ++ List.replicate xs.length none := by
      rw [List.replicate_succ, List.set_append_right A.length (some x) le_rfl]
      simp
    have hlen : A.length + 1 = (A ++ [some x]).length := by simp
    rw [hset, hlen, ih (A ++ [some x])]
    simp

theorem collectInOrder_perm (results : List (List Element))
    (completions : List (Nat × List Element))
    (hperm : completions.Perm results.enum) :
    collectInOrder results.length completions = results.flatten := by
  have hkeys : (completions.map Prod.fst).Nodup := by
    have h1 : (completions.map Prod.fst).Perm (results.enum.map Prod.fst) :=
      hperm.map Prod.fst
    rw [h1.nodup_iff, List.enum_map_fst]
    exact List.nodup_range _
  have h2 : applyCompletions (List.replicate results.length none) completions
      = applyCompletions (List.replicate results.length none) results.enum :=
    applyCompletions_perm _ _ _ hperm hkeys
  have h3 : applyCompletions (List.replicate results.length none) results.enum
      = results.map some := by
    simpa using applyCompletions_enumFrom_replicate results []
  rw [collectInOrder, h2, h3]
  simp [List.map_map, Function.comp_def]

/-- C1: in parallel mode (with the default base starting page number
1), the merged output of the fan-out dispatcher is the concatenation of
the per-chunk element sequences in chunk index order — independent of
the order in which the workers complete — and each chunk's partition
call carries a starting page number rebased by that chunk's offset, so
an element on local page `p` of the chunk starting at offset `o`
appears in the merged output with page number `p + o`. -/
theorem parallel_dispatch_page_order
    (remote localPartition : List α → Nat → List Element)
    (localElems : List α → List (String × Nat))
    (hremote : ∀ chunkPages s, remote chunkPages s
        = (localElems chunkPages).map (fun tp => Element.mk tp.1 (s + tp.2 - 1)))
    (pages : List α) (C : Nat) (hP : C < pages.length) :
    partition_pdf_splits remote localPartition 1 pages C
      = ((get_pdf_splits pages C).map (fun ch => remote ch.1 (1 + ch.2))).flatten
    ∧ (∀ completions, completions.Perm
          (((get_pdf_splits pages C).map (fun ch => remote ch.1 (1 + ch.2))).enum) →
        collectInOrder ((get_pdf_splits pages C).map
            (fun ch => remote ch.1 (1 + ch.2))).length completions
          = partition_pdf_splits remote localPartition 1 pages C)
    ∧ (∀ ch ∈ get_pdf_splits pages C, ∀ tp ∈ localElems ch.1,
        Element.mk tp.1 (tp.2 + ch.2)
          ∈ partition_pdf_splits remote localPartition 1 pages C) := by
  have hbranch : partition_pdf_splits remote localPartition 1 pages C
      = ((get_pdf_splits pages C).map (fun ch => remote ch.1 (1 + ch.2))).flatten := by
    rw [partition_pdf_splits, if_neg (by omega)]
    rfl
  refine ⟨hbranch, ?_, ?_⟩
  · intro completions hcomp
    rw [hbranch]
    exact collectInOrder_perm _ completions hcomp
  · intro ch hch tp htp
    rw [hbranch, List.mem_flatten]
    refine ⟨remote ch.1 (1 + ch.2), List.mem_map_of_mem _ hch, ?_⟩
    rw [hremote]
    rw [show tp.2 + ch.2 = 1 + ch.2 + tp.2 - 1 by omega]
    exact List.mem_map_of_mem _ htp

/-- Witness for C1: four pages, chunk size 3, an engine that yields one
element on local page 1 of each chunk. -/
theorem parallel_dispatch_page_order_witness :
    3 < ([10, 20, 30, 40] : List Nat).length
    ∧ partition_pdf_splits
        (fun (_ch : List Nat) (s : Nat) =>
          ([("t", 1)] : List (String × Nat)).map
            (fun tp => Element.mk tp.1 (s + tp.2 - 1)))
        (fun _ _ => []) 1 [10, 20, 30, 40] 3
      = ((get_pdf_splits ([10, 20, 30, 40] : List Nat) 3).map
          (fun ch =>
            ([("t", 1)] : List (String × Nat)).map
              (fun tp => Element.mk tp.1 (1 + ch.2 + tp.2 - 1)))).flatten :=
  ⟨by decide,
    (parallel_dispatch_page_order
      (fun (_ch : List Nat) (s : Nat) =>
        ([("t", 1)] : List (String × Nat)).map
          (fun tp => Element.mk tp.1 (s + tp.2 - 1)))
      (fun _ _ => []) (fun _ => [("t", 1)]) (fun _ _ => rfl)
      [10, 20, 30, 40] 3 (by decide)).1⟩

end UnstructuredApi
